import Mathlib

/-!
# Verification of the GOWA broadcast dispatch engine

Shallow embedding of `internal/broadcast/broadcast.go`, `internal/config/config.go`
and the parts of `internal/database/database.go` they use.

Conventions of the embedding:
* Go `int` counters that only ever start at 0 and are incremented become `Nat`;
  configuration integers that may be zero or negative (they are parsed from
  environment variables by `getEnvInt`) become `Int`.
* Time is virtual, in milliseconds: `time.Sleep` advances a `now : Nat` field
  (a negative duration sleeps 0 ms, as in Go), `time.Now()` reads it.
* The single-shot cancellation channel of a `BroadcastJob` is modelled by a
  parameter `cancelAt : Option Nat`: `some k` means the non-blocking poll at
  the start of loop iteration `k` is the first (and, the channel being drained
  by that receive, only) poll that observes the signal.
* The WhatsApp client is modelled by the per-recipient outcome list
  `outcomes : List Bool` (`true` = the send for that recipient returns no
  error); the database by association lists keyed by the record id.
* `float64` progress values are modelled exactly in `ℚ`.
-/

namespace Gowa

/-- Model of `config.BroadcastConfig` (config.go): `RateLimit`, `DelayMS`, `MaxRecipients`
are Go `int`s read by `getEnvInt`, so any integer value can occur. -/
structure BroadcastConfig where
  rateLimit : Int
  delayMS : Int
  maxRecipients : Int
  deriving Repr, DecidableEq

/-- The slice of `config.Config` used by the broadcast engine. -/
structure Config where
  broadcast : BroadcastConfig
  deriving Repr, DecidableEq

/-- Model of `database.BroadcastRecipient`: only the fields the engine reads. -/
structure BroadcastRecipient where
  jid : String
  isActive : Bool
  deriving Repr, DecidableEq

/-- Model of `database.BroadcastList`: only the fields the engine reads. -/
structure BroadcastList where
  isActive : Bool
  recipients : List BroadcastRecipient
  deriving Repr, DecidableEq

/-- Model of `database.BroadcastMessage`: the persisted job record. -/
structure BroadcastMessage where
  id : Nat
  broadcastListID : Nat
  messageType : String
  content : String
  mediaURL : String
  status : String
  sentCount : Nat
  failedCount : Nat
  totalRecipients : Nat
  startedAt : Option Nat
  completedAt : Option Nat
  deriving Repr, DecidableEq

/-- Model of `broadcast.BroadcastJob`: the in-memory job (the `cancel` channel is
modelled separately, see the module docstring). -/
structure BroadcastJob where
  id : Nat
  broadcastListID : Nat
  messageType : String
  content : String
  mediaURL : String
  recipients : List String
  status : String
  sentCount : Nat
  failedCount : Nat
  totalRecipients : Nat
  startedAt : Option Nat
  completedAt : Option Nat
  deriving Repr, DecidableEq

/-- Model of `broadcast.BroadcastStatus`: the status view returned to callers. -/
structure BroadcastStatus where
  id : Nat
  broadcastListID : Nat
  status : String
  sentCount : Nat
  failedCount : Nat
  totalRecipients : Nat
  progress : ℚ
  startedAt : Option Nat
  completedAt : Option Nat
  deriving Repr, DecidableEq

/-- Model of `broadcast.Manager`: configuration, the persisted job table (`db`,
keyed by broadcast id) and the registry of active jobs (`active`). -/
structure Manager where
  cfg : Config
  db : List (Nat × BroadcastMessage)
  active : List (Nat × BroadcastJob)
  deriving Repr, DecidableEq

/-- Model of `broadcast.NewManager` (broadcast.go:70-77): stores the config and an empty
active map; it performs no validation of any kind. -/
def NewManager (cfg : Config) : Manager :=
  { cfg := cfg, db := [], active := [] }

/-! ## The dispatch loop `sendToRecipients` (broadcast.go:223-288)

The loop body is embedded statement by statement.  The observable state of one
invocation is `LoopState`; `sendTimes` records the virtual time and outcome of
every attempted send (for rate-window counting) and `resets` counts how often
the rate-limiting branch (`sentInWindow >= rateLimit`) was entered. -/

structure LoopState where
  sentCount : Nat
  failedCount : Nat
  sentInWindow : Nat
  windowStart : Nat
  now : Nat
  resets : Nat
  sendTimes : List (Nat × Bool)
  deriving Repr, DecidableEq

/-- Initial loop state at virtual time `t0` (broadcast.go:226-227). -/
def initLoopState (t0 : Nat) : LoopState :=
  { sentCount := 0, failedCount := 0, sentInWindow := 0,
    windowStart := t0, now := t0, resets := 0, sendTimes := [] }

/-- One iteration of the `for i, recipientJID := range job.Recipients` body,
after the cancellation poll (broadcast.go:238-286), for recipient index `i`
of `n` with send outcome `o`. -/
def sendStep (cfg : BroadcastConfig) (n i : Nat) (o : Bool) (s : LoopState) :
    LoopState :=
  -- Rate limiting (broadcast.go:239-247): on `sentInWindow >= rateLimit`,
  -- sleep out the remainder of the window and reset the counter.
  let s1 :=
    if cfg.rateLimit ≤ (s.sentInWindow : Int) then
      let elapsed := s.now - s.windowStart
      let now2 := if elapsed < 60000 then s.windowStart + 60000 else s.now
      { s with now := now2, sentInWindow := 0, windowStart := now2,
               resets := s.resets + 1 }
    else s
  -- The send itself (broadcast.go:249-264), recorded with its virtual time.
  let s2 := { s1 with sendTimes := s1.sendTimes ++ [(s1.now, o)] }
  -- Counter updates (broadcast.go:266-273): only a successful send
  -- increments `sentInWindow`.
  let s3 :=
    if o then
      { s2 with sentCount := s2.sentCount + 1, sentInWindow := s2.sentInWindow + 1 }
    else
      { s2 with failedCount := s2.failedCount + 1 }
  -- Inter-message delay (broadcast.go:284-286); a non-positive DelayMS
  -- sleeps 0 ms.
  if i < n - 1 then { s3 with now := s3.now + cfg.delayMS.toNat } else s3

/-- The loop over the remaining outcomes, starting at index `i`;
the cancellation poll (broadcast.go:231-236) returns immediately when the
signal is observed. -/
def loopAux (cfg : BroadcastConfig) (n : Nat) (cancelAt : Option Nat) :
    Nat → List Bool → LoopState → LoopState
  | _, [], s => s
  | i, o :: rest, s =>
    if cancelAt = some i then s
    else loopAux cfg n cancelAt (i + 1) rest (sendStep cfg n i o s)

/-- Model of `sendToRecipients` (broadcast.go:223-288): run the loop over the whole
outcome list from virtual time `t0`. -/
def sendToRecipients (cfg : BroadcastConfig) (outcomes : List Bool)
    (cancelAt : Option Nat) (t0 : Nat) : LoopState :=
  loopAux cfg outcomes.length cancelAt 0 outcomes (initLoopState t0)

/-- Model of `executeBroadcast` (broadcast.go:161-220): mark the record `sending`,
run the loop, and finalize.  The final `m.db.Save` (broadcast.go:211-217)
sets `Status = "completed"` unconditionally — also when the loop returned
early because it observed the cancellation signal. -/
def executeBroadcast (cfg : BroadcastConfig) (msg : BroadcastMessage)
    (outcomes : List Bool) (cancelAt : Option Nat) (t0 : Nat) :
    BroadcastMessage :=
  let msg1 := { msg with status := "sending", startedAt := some t0 }
  let s := sendToRecipients cfg outcomes cancelAt t0
  { msg1 with status := "completed", sentCount := s.sentCount,
              failedCount := s.failedCount, completedAt := some s.now }

/-! ## Status queries (broadcast.go:290-314, 340-367) -/

/-- The guarded progress computation shared by `GetBroadcastStatus`
(broadcast.go:297-300) and `ListActiveBroadcasts` (broadcast.go:346-350):
`progress` stays `0` unless `TotalRecipients > 0`. -/
def progressOf (sentCount failedCount totalRecipients : Nat) : ℚ :=
  if 0 < totalRecipients then
    ((sentCount : ℚ) + (failedCount : ℚ)) / (totalRecipients : ℚ) * 100
  else 0

/-- The `BroadcastStatus` built from a persisted record
(broadcast.go:302-313). -/
def statusOfMessage (msg : BroadcastMessage) : BroadcastStatus :=
  { id := msg.id, broadcastListID := msg.broadcastListID, status := msg.status,
    sentCount := msg.sentCount, failedCount := msg.failedCount,
    totalRecipients := msg.totalRecipients,
    progress := progressOf msg.sentCount msg.failedCount msg.totalRecipients,
    startedAt := msg.startedAt, completedAt := msg.completedAt }

/-- The `BroadcastStatus` built from a live job (broadcast.go:352-362). -/
def statusOfJob (job : BroadcastJob) : BroadcastStatus :=
  { id := job.id, broadcastListID := job.broadcastListID, status := job.status,
    sentCount := job.sentCount, failedCount := job.failedCount,
    totalRecipients := job.totalRecipients,
    progress := progressOf job.sentCount job.failedCount job.totalRecipients,
    startedAt := job.startedAt, completedAt := job.completedAt }

/-- Model of `GetBroadcastStatus` (broadcast.go:291-314): fetch the persisted record by
id — the body never consults `m.active` — and return its status view, or
`none` (gorm `First` error, surfaced as not-found) when the id is absent. -/
def GetBroadcastStatus (m : Manager) (broadcastID : Nat) :
    Option BroadcastStatus :=
  match m.db.lookup broadcastID with
  | none => none
  | some msg => some (statusOfMessage msg)

/-- Model of `ListActiveBroadcasts` (broadcast.go:341-367): a status view of every job
currently in the active registry. -/
def ListActiveBroadcasts (m : Manager) : List BroadcastStatus :=
  m.active.map (fun p => statusOfJob p.2)

/-! ## Job creation `CreateBroadcast` (broadcast.go:80-158) -/

/-- The failure site of a `CreateBroadcast` call, one constructor per
`return` with a non-nil error in broadcast.go:83-137. -/
inductive CreateError where
  | notFound
  | inactiveList
  | noRecipients
  | tooManyRecipients
  | dbCreateFailed
  deriving Repr, DecidableEq

/-- Model of `broadcast.BroadcastRequest` (broadcast.go:41-47). -/
structure BroadcastRequest where
  broadcastListID : Nat
  messageType : String
  content : String
  mediaURL : String
  scheduledAt : String
  deriving Repr, DecidableEq

/-- Model of `broadcast.BroadcastResponse` (broadcast.go:49-55); `estimatedTime` is
`len(activeRecipients) * DelayMS` in milliseconds (broadcast.go:139-141). -/
structure BroadcastResponse where
  success : Bool
  broadcastID : Nat
  message : String
  totalRecipients : Nat
  estimatedTime : Int
  deriving Repr, DecidableEq

/-- The observable outcome of one `CreateBroadcast` call: the returned
response and error, the job record persisted by `m.db.Create` (if any), and
whether `go m.executeBroadcast(...)` was spawned. -/
structure CreateResult where
  response : BroadcastResponse
  err : Option CreateError
  persisted : Option BroadcastMessage
  dispatchStarted : Bool
  deriving Repr, DecidableEq

/-- The active-recipient filter (broadcast.go:98-103). -/
def activeRecipients (bl : BroadcastList) : List BroadcastRecipient :=
  bl.recipients.filter (fun r => r.isActive)

/-- Model of `CreateBroadcast` (broadcast.go:80-158).  `lookup` is the result of
`m.db.Preload("Recipients").First(...)` for `req.broadcastListID` (`none` =
record not found), `dbCreateOk` whether `m.db.Create` succeeds, and `newId`
the id the database assigns to the new record. -/
def CreateBroadcast (cfg : BroadcastConfig) (lookup : Option BroadcastList)
    (dbCreateOk : Bool) (newId : Nat) (req : BroadcastRequest) : CreateResult :=
  match lookup with
  | none =>
    { response := { success := false, broadcastID := 0,
                    message := "Broadcast list not found",
                    totalRecipients := 0, estimatedTime := 0 },
      err := some .notFound, persisted := none, dispatchStarted := false }
  | some bl =>
    if !bl.isActive then
      { response := { success := false, broadcastID := 0,
                      message := "Broadcast list is not active",
                      totalRecipients := 0, estimatedTime := 0 },
        err := some .inactiveList, persisted := none, dispatchStarted := false }
    else
      let act := activeRecipients bl
      if act.length = 0 then
        { response := { success := false, broadcastID := 0,
                        message := "No active recipients found",
                        totalRecipients := 0, estimatedTime := 0 },
          err := some .noRecipients, persisted := none,
          dispatchStarted := false }
      else if cfg.maxRecipients < (act.length : Int) then
        { response := { success := false, broadcastID := 0,
                        message := "Too many recipients",
                        totalRecipients := 0, estimatedTime := 0 },
          err := some .tooManyRecipients, persisted := none,
          dispatchStarted := false }
      else if !dbCreateOk then
        { response := { success := false, broadcastID := 0,
                        message := "Failed to create broadcast",
                        totalRecipients := 0, estimatedTime := 0 },
          err := some .dbCreateFailed, persisted := none,
          dispatchStarted := false }
      else
        { response := { success := true, broadcastID := newId,
                        message := "Broadcast created successfully",
                        totalRecipients := act.length,
                        estimatedTime := (act.length : Int) * cfg.delayMS },
          err := none,
          persisted := some
            { id := newId, broadcastListID := req.broadcastListID,
              messageType := req.messageType, content := req.content,
              mediaURL := req.mediaURL, status := "pending",
              sentCount := 0, failedCount := 0,
              totalRecipients := act.length,
              startedAt := none, completedAt := none },
          -- broadcast.go:144-149: the dispatch goroutine is spawned only
          -- when `ScheduledAt` is empty; otherwise only a log line runs.
          dispatchStarted := req.scheduledAt = "" }

/-- Count of recorded send times falling in the half-open window
`[lo, lo+60000)`. -/
def countInWindow (times : List Nat) (lo : Nat) : Nat :=
  (times.filter (fun t => lo ≤ t && t < lo + 60000)).length

/-- Update the status of record `id` in the persisted table, as done by
`m.db.Model(...).Where("id = ?", ...).Update("status", ...)`. -/
def dbSetStatus (db : List (Nat × BroadcastMessage)) (id : Nat)
    (st : String) : List (Nat × BroadcastMessage) :=
  db.map (fun p => if p.1 = id then (p.1, { p.2 with status := st }) else p)

/-- Model of `CancelBroadcast` (broadcast.go:317-338): fails when the id is not
in the active registry; otherwise raises the job's cancellation signal
(modelled by the `cancelAt` parameter of the dispatch loop) and eagerly
persists status `cancelled`.  Returns the manager with the updated table, or
`none` for the `"broadcast not found or not active"` error. -/
def CancelBroadcast (m : Manager) (broadcastID : Nat) : Option Manager :=
  match m.active.lookup broadcastID with
  | none => none
  | some _ => some { m with db := dbSetStatus m.db broadcastID "cancelled" }

/-! ## Concrete instances used by witnesses and counterexamples -/

/-- Default broadcast configuration of `config.Load` (config.go:69-73). -/
def cfgDefault : BroadcastConfig :=
  { rateLimit := 10, delayMS := 1000, maxRecipients := 100 }

/-- Configuration with `BROADCAST_RATE_LIMIT=2` and no inter-message delay. -/
def cfgR2 : BroadcastConfig :=
  { rateLimit := 2, delayMS := 0, maxRecipients := 100 }

/-- Configuration with the non-positive rate `BROADCAST_RATE_LIMIT=0`. -/
def cfgR0 : Config :=
  ⟨{ rateLimit := 0, delayMS := 1000, maxRecipients := 100 }⟩

/-- Configuration with recipient ceiling `BROADCAST_MAX_RECIPIENTS=0`. -/
def cfgTiny : BroadcastConfig :=
  { rateLimit := 10, delayMS := 1000, maxRecipients := 0 }

/-- A pending persisted record with three recipients. -/
def msgThree : BroadcastMessage :=
  { id := 1, broadcastListID := 1, messageType := "text", content := "hello",
    mediaURL := "", status := "pending", sentCount := 0, failedCount := 0,
    totalRecipients := 3, startedAt := none, completedAt := none }

/-- A pending persisted record with two recipients. -/
def msgTwo : BroadcastMessage :=
  { msgThree with id := 2, totalRecipients := 2 }

/-- A persisted record mid-dispatch whose counters were last flushed at 0. -/
def msgEight : BroadcastMessage :=
  { id := 1, broadcastListID := 1, messageType := "text", content := "hello",
    mediaURL := "", status := "sending", sentCount := 0, failedCount := 0,
    totalRecipients := 8, startedAt := some 0, completedAt := none }

/-- A persisted record with zero recipients. -/
def msgZero : BroadcastMessage :=
  { id := 9, broadcastListID := 2, messageType := "text", content := "x",
    mediaURL := "", status := "pending", sentCount := 0, failedCount := 0,
    totalRecipients := 0, startedAt := none, completedAt := none }

/-- A live in-memory job whose counters (5 sent) are fresher than the
persisted record `msgEight` (0 sent). -/
def jobLive : BroadcastJob :=
  { id := 1, broadcastListID := 1, messageType := "text", content := "hello",
    mediaURL := "", recipients := ["a", "b", "c", "d", "e", "f", "g", "h"],
    status := "sending", sentCount := 5, failedCount := 0,
    totalRecipients := 8, startedAt := some 0, completedAt := none }

/-- A live in-memory job with three recipients, mid-dispatch. -/
def jobThree : BroadcastJob :=
  { id := 1, broadcastListID := 1, messageType := "text", content := "hello",
    mediaURL := "", recipients := ["a", "b", "c"], status := "sending",
    sentCount := 1, failedCount := 0, totalRecipients := 3,
    startedAt := some 0, completedAt := none }

/-- A live in-memory job with zero recipients. -/
def jobZero : BroadcastJob :=
  { id := 9, broadcastListID := 2, messageType := "text", content := "x",
    mediaURL := "", recipients := [], status := "sending", sentCount := 0,
    failedCount := 0, totalRecipients := 0, startedAt := none,
    completedAt := none }

/-- A manager in which job 1 is active with live counters ahead of the
persisted ones. -/
def mgrStale : Manager :=
  { cfg := ⟨cfgDefault⟩, db := [(1, msgEight)], active := [(1, jobLive)] }

/-- A manager in which job 1 is active mid-dispatch. -/
def mgrActive : Manager :=
  { cfg := ⟨cfgDefault⟩, db := [(1, { msgThree with status := "sending" })],
    active := [(1, jobThree)] }

/-- A manager holding a zero-recipient record and a zero-recipient live job. -/
def mgrZero : Manager :=
  { cfg := ⟨cfgDefault⟩, db := [(9, msgZero)], active := [(9, jobZero)] }

/-- An active broadcast list with one active recipient. -/
def blOne : BroadcastList :=
  { isActive := true,
    recipients := [{ jid := "628111@s.whatsapp.net", isActive := true }] }

/-- An inactive broadcast list. -/
def blInactive : BroadcastList :=
  { isActive := false,
    recipients := [{ jid := "628111@s.whatsapp.net", isActive := true }] }

/-- An active broadcast list whose only recipient is inactive. -/
def blEmpty : BroadcastList :=
  { isActive := true,
    recipients := [{ jid := "628222@s.whatsapp.net", isActive := false }] }

/-- An unscheduled broadcast request. -/
def reqPlain : BroadcastRequest :=
  { broadcastListID := 1, messageType := "text", content := "hello",
    mediaURL := "", scheduledAt := "" }

/-- A request with a non-empty `ScheduledAt` field. -/
def reqScheduled : BroadcastRequest :=
  { reqPlain with scheduledAt := "2025-01-01T00:00:00Z" }

/-! ## Lemmas about one loop iteration -/

lemma sendStep_sentCount (cfg : BroadcastConfig) (n i : Nat) (o : Bool)
    (s : LoopState) :
    (sendStep cfg n i o s).sentCount = s.sentCount + if o then 1 else 0 := by
  simp only [sendStep]
  split_ifs <;> simp

lemma sendStep_failedCount (cfg : BroadcastConfig) (n i : Nat) (o : Bool)
    (s : LoopState) :
    (sendStep cfg n i o s).failedCount = s.failedCount + if o then 0 else 1 := by
  simp only [sendStep]
  split_ifs <;> simp

lemma sendStep_resets (cfg : BroadcastConfig) (n i : Nat) (o : Bool)
    (s : LoopState) :
    (sendStep cfg n i o s).resets =
      s.resets + if cfg.rateLimit ≤ (s.sentInWindow : Int) then 1 else 0 := by
  simp only [sendStep]
  split_ifs <;> simp

lemma sendStep_sentInWindow (cfg : BroadcastConfig) (n i : Nat) (o : Bool)
    (s : LoopState) :
    (sendStep cfg n i o s).sentInWindow =
      (if cfg.rateLimit ≤ (s.sentInWindow : Int) then 0 else s.sentInWindow) +
        (if o then 1 else 0) := by
  simp only [sendStep]
  split_ifs <;> simp

/-! ## Lemmas about the whole loop -/

lemma loopAux_counts_none (cfg : BroadcastConfig) (n : Nat) :
    ∀ (rest : List Bool) (i : Nat) (s : LoopState),
      (loopAux cfg n none i rest s).sentCount = s.sentCount + rest.count true ∧
      (loopAux cfg n none i rest s).failedCount = s.failedCount + rest.count false
  | [], i, s => by simp [loopAux]
  | o :: rest, i, s => by
    have ih := loopAux_counts_none cfg n rest (i + 1) (sendStep cfg n i o s)
    simp only [loopAux, reduceCtorEq, if_false]
    rw [ih.1, ih.2, sendStep_sentCount, sendStep_failedCount]
    cases o <;> simp [List.count_cons] <;> omega

lemma loopAux_sentInWindow_le (cfg : BroadcastConfig) (n : Nat)
    (cancelAt : Option Nat) (hR : 1 ≤ cfg.rateLimit) :
    ∀ (rest : List Bool) (i : Nat) (s : LoopState),
      (s.sentInWindow : Int) ≤ cfg.rateLimit →
      ((loopAux cfg n cancelAt i rest s).sentInWindow : Int) ≤ cfg.rateLimit
  | [], i, s, h => by simpa [loopAux] using h
  | o :: rest, i, s, h => by
    rw [loopAux]
    split
    · exact h
    · apply loopAux_sentInWindow_le cfg n cancelAt hR rest (i + 1)
      rw [sendStep_sentInWindow]
      split_ifs with h1 h2 h2 <;> push_cast <;> omega

lemma loopAux_resets_rle0 (cfg : BroadcastConfig) (n : Nat)
    (hR : cfg.rateLimit ≤ 0) :
    ∀ (rest : List Bool) (i : Nat) (s : LoopState),
      (loopAux cfg n none i rest s).resets = s.resets + rest.length
  | [], i, s => by simp [loopAux]
  | o :: rest, i, s => by
    have ih := loopAux_resets_rle0 cfg n hR rest (i + 1) (sendStep cfg n i o s)
    simp only [loopAux, reduceCtorEq, if_false]
    rw [ih, sendStep_resets]
    have h : cfg.rateLimit ≤ (s.sentInWindow : Int) :=
      le_trans hR (by positivity)
    rw [if_pos h]
    simp [List.length_cons]
    omega

lemma loopAux_failing_run (cfg : BroadcastConfig) (n : Nat)
    (cancelAt : Option Nat) :
    ∀ (rest : List Bool), (∀ o ∈ rest, o = false) →
      ∀ (i : Nat) (s : LoopState), (s.sentInWindow : Int) < cfg.rateLimit →
      (loopAux cfg n cancelAt i rest s).resets = s.resets ∧
      (loopAux cfg n cancelAt i rest s).sentCount = s.sentCount ∧
      (loopAux cfg n cancelAt i rest s).sentInWindow = s.sentInWindow ∧
      (cancelAt = none →
        (loopAux cfg n cancelAt i rest s).failedCount =
          s.failedCount + rest.length)
  | [], _, i, s, _ => by simp [loopAux]
  | o :: rest, hall, i, s, hlt => by
    have ho : o = false := hall o (List.mem_cons_self o rest)
    subst ho
    have hnb : ¬ cfg.rateLimit ≤ (s.sentInWindow : Int) := not_le.mpr hlt
    have hstep : (sendStep cfg n i false s).sentInWindow = s.sentInWindow := by
      rw [sendStep_sentInWindow, if_neg hnb]; simp
    rw [loopAux]
    split
    · rename_i hc
      refine ⟨rfl, rfl, rfl, fun hn => ?_⟩
      rw [hn] at hc
      exact absurd hc (by simp)
    · have ih := loopAux_failing_run cfg n cancelAt rest
        (fun o ho => hall o (List.mem_cons_of_mem _ ho)) (i + 1)
        (sendStep cfg n i false s) (by rw [hstep]; exact hlt)
      refine ⟨?_, ?_, ?_, fun hn => ?_⟩
      · rw [ih.1, sendStep_resets, if_neg hnb]; simp
      · rw [ih.2.1, sendStep_sentCount]; simp
      · rw [ih.2.2.1, hstep]
      · rw [ih.2.2.2 hn, sendStep_failedCount]; simp [List.length_cons]; omega

/-! ## Claim theorems -/

/-- C1: cancelling a 3-recipient job whose cancellation poll succeeds at
iteration 1 (so k = 1 recipients were attempted) stops the loop with
`sentCount + failedCount = 1`; `CancelBroadcast` does persist `cancelled`,
but the finalization in `executeBroadcast` (broadcast.go:211-217) then
overwrites the persisted status with `completed` unconditionally, so the
final persisted status is `completed`, not `cancelled`, contradicting the
claim (and the `status = "cancelled"` rows the dashboard statistics expect). -/
theorem cancelled_job_persisted_as_completed :
    ((CancelBroadcast mgrActive 1).map
      (fun m2 => (m2.db.lookup 1).map BroadcastMessage.status)) =
        some (some "cancelled") ∧
    (executeBroadcast cfgDefault msgThree [true, true, true] (some 1) 0).sentCount +
      (executeBroadcast cfgDefault msgThree [true, true, true] (some 1) 0).failedCount = 1 ∧
    (executeBroadcast cfgDefault msgThree [true, true, true] (some 1) 0).status =
      "completed" ∧
    (executeBroadcast cfgDefault msgThree [true, true, true] (some 1) 0).status ≠
      "cancelled" := by
  refine ⟨by decide, by decide, by decide, by decide⟩

/-- C2: a 2-recipient job cancelled before any attempt is finalized by
`executeBroadcast` with persisted status `completed` while
`sentCount + failedCount = 0 ≠ 2 = totalRecipients`, violating the claimed
invariant that status `completed` implies
`sentCount + failedCount = totalRecipients`.  (The `≤` half of the claim
does hold: every iteration increments exactly one counter, see
`loopAux_counts_none` and `loopAux_failing_run`.) -/
theorem completed_status_with_partial_counters :
    (executeBroadcast cfgDefault msgTwo [true, true] (some 0) 0).status =
      "completed" ∧
    (executeBroadcast cfgDefault msgTwo [true, true] (some 0) 0).sentCount +
      (executeBroadcast cfgDefault msgTwo [true, true] (some 0) 0).failedCount = 0 ∧
    (executeBroadcast cfgDefault msgTwo [true, true] (some 0) 0).totalRecipients = 2 ∧
    (executeBroadcast cfgDefault msgTwo [true, true] (some 0) 0).sentCount +
        (executeBroadcast cfgDefault msgTwo [true, true] (some 0) 0).failedCount ≠
      (executeBroadcast cfgDefault msgTwo [true, true] (some 0) 0).totalRecipients := by
  refine ⟨by decide, by decide, by decide, by decide⟩

/-- C3 counterexample: the rate-limit state (`sentInWindow`, `windowStart`) is
local to each `sendToRecipients` invocation — the manager holds no shared
limiter — so two jobs that start concurrently at time 0 with `R = 2` each
complete 2 sends at time 0, and the 60-second window starting at 0 contains
4 > R completed acquisitions: the limiter is per-job, not a global gate. -/
theorem concurrent_jobs_exceed_window_limit :
    cfgR2.rateLimit = 2 ∧
    2 < countInWindow
        (((sendToRecipients cfgR2 [true, true] none 0).sendTimes ++
          (sendToRecipients cfgR2 [true, true] none 0).sendTimes).map Prod.fst) 0 := by
  refine ⟨rfl, by decide⟩

/-- C3 amended: the limiter is per-job: within a single dispatch loop the
in-window success counter never exceeds `R` (for `R ≥ 1`), for every outcome
list — hence at every intermediate point, each point being the final state of
the run on a prefix — while concurrently active jobs each hold an independent
counter and can jointly exceed `R` per window. -/
theorem per_job_window_counter_bounded (cfg : BroadcastConfig)
    (outcomes : List Bool) (cancelAt : Option Nat) (t0 : Nat)
    (hR : 1 ≤ cfg.rateLimit) :
    ((sendToRecipients cfg outcomes cancelAt t0).sentInWindow : Int) ≤
      cfg.rateLimit := by
  apply loopAux_sentInWindow_le cfg outcomes.length cancelAt hR
  simp only [initLoopState, Nat.cast_zero]
  omega

/-- Witness for `per_job_window_counter_bounded` at the default config. -/
theorem per_job_window_counter_bounded_witness :
    (1 : Int) ≤ cfgDefault.rateLimit ∧
    ((sendToRecipients cfgDefault [true, false] none 0).sentInWindow : Int) ≤
      cfgDefault.rateLimit :=
  ⟨by decide, per_job_window_counter_bounded cfgDefault [true, false] none 0 (by decide)⟩

/-- C4 counterexample: with job 1 registered as active and its live counters
ahead of the persisted record (5 sent live vs 0 flushed), `GetBroadcastStatus`
reports the persisted 0 — the code never consults the active registry — so the
claim that an active job's status is read from the live `DispatchJob` fails. -/
theorem get_status_ignores_live_job :
    (mgrStale.active.lookup 1).map BroadcastJob.sentCount = some 5 ∧
    (GetBroadcastStatus mgrStale 1).map BroadcastStatus.sentCount = some 0 := by
  refine ⟨by decide, ?_⟩
  simp [GetBroadcastStatus, mgrStale, statusOfMessage, msgEight]

/-- C4 amended: `GetBroadcastStatus` always reads the persisted record: its
result is independent of the active registry (and of the configuration), it
is `none` exactly when the id is unknown to the persisted table, and
otherwise it is the status view of the persisted record (whose `progress` is
the guarded `(sent+failed)/total × 100`). -/
theorem get_status_reads_persisted_state :
    ∀ (cfg cfg2 : Config) (db : List (Nat × BroadcastMessage))
      (a1 a2 : List (Nat × BroadcastJob)) (id : Nat),
      GetBroadcastStatus ⟨cfg, db, a1⟩ id = GetBroadcastStatus ⟨cfg2, db, a2⟩ id ∧
      (GetBroadcastStatus ⟨cfg, db, a1⟩ id = none ↔ db.lookup id = none) ∧
      (∀ msg, db.lookup id = some msg →
        GetBroadcastStatus ⟨cfg, db, a1⟩ id = some (statusOfMessage msg)) := by
  intro cfg cfg2 db a1 a2 id
  refine ⟨?_, ?_, ?_⟩ <;> simp only [GetBroadcastStatus] <;>
    cases h : db.lookup id <;> simp [h]

/-- Witness for `get_status_reads_persisted_state` on `mgrStale`. -/
theorem get_status_reads_persisted_state_witness :
    GetBroadcastStatus mgrStale 1 = some (statusOfMessage msgEight) := by
  have h := get_status_reads_persisted_state ⟨cfgDefault⟩ ⟨cfgDefault⟩
    [(1, msgEight)] [(1, jobLive)] [] 1
  exact h.2.2 msgEight (by decide)

/-- C5: `CreateBroadcast` validates in the order list-missing (`notFound`),
list-inactive (`inactiveList`), zero active recipients (`noRecipients`),
ceiling exceeded (`tooManyRecipients`); and every failing call persists no
job record and starts no dispatch goroutine. -/
theorem create_broadcast_validation_order :
    ∀ (cfg : BroadcastConfig) (lookup : Option BroadcastList) (dbCreateOk : Bool)
      (newId : Nat) (req : BroadcastRequest),
      (lookup = none →
        (CreateBroadcast cfg lookup dbCreateOk newId req).err = some .notFound) ∧
      (∀ bl, lookup = some bl → bl.isActive = false →
        (CreateBroadcast cfg lookup dbCreateOk newId req).err = some .inactiveList) ∧
      (∀ bl, lookup = some bl → bl.isActive = true →
        (activeRecipients bl).length = 0 →
        (CreateBroadcast cfg lookup dbCreateOk newId req).err = some .noRecipients) ∧
      (∀ bl, lookup = some bl → bl.isActive = true →
        (activeRecipients bl).length ≠ 0 →
        cfg.maxRecipients < ((activeRecipients bl).length : Int) →
        (CreateBroadcast cfg lookup dbCreateOk newId req).err =
          some .tooManyRecipients) ∧
      ((CreateBroadcast cfg lookup dbCreateOk newId req).err ≠ none →
        (CreateBroadcast cfg lookup dbCreateOk newId req).persisted = none ∧
        (CreateBroadcast cfg lookup dbCreateOk newId req).dispatchStarted = false) := by
  intro cfg lookup dbCreateOk newId req
  refine ⟨?_, ?_, ?_, ?_, ?_⟩
  · rintro rfl; rfl
  · rintro bl rfl hact; simp [CreateBroadcast, hact]
  · rintro bl rfl hact hlen; simp [CreateBroadcast, hact, hlen]
  · rintro bl rfl hact hlen hmax
    simp [CreateBroadcast, hact, hlen, hmax, not_le.mpr hmax]
  · intro herr
    cases lookup with
    | none => exact ⟨rfl, rfl⟩
    | some bl =>
      by_cases hact : bl.isActive <;>
        simp only [CreateBroadcast, hact, Bool.not_true, Bool.not_false,
          if_true, if_false] at herr ⊢
      · by_cases hlen : (activeRecipients bl).length = 0 <;>
          simp only [hlen, if_true, if_false] at herr ⊢
        · constructor <;> trivial
        · by_cases hmax : cfg.maxRecipients < ((activeRecipients bl).length : Int)
          · simp [hmax] at herr ⊢
          · simp [hmax] at herr ⊢
            cases dbCreateOk <;> simp at herr ⊢
      · constructor <;> trivial

/-- Witness for `create_broadcast_validation_order`: each validation failure
at a concrete input, plus no-persist and no-dispatch for the first. -/
theorem create_broadcast_validation_order_witness :
    (CreateBroadcast cfgDefault none true 5 reqPlain).err = some .notFound ∧
    (CreateBroadcast cfgDefault (some blInactive) true 5 reqPlain).err =
      some .inactiveList ∧
    (CreateBroadcast cfgDefault (some blEmpty) true 5 reqPlain).err =
      some .noRecipients ∧
    (CreateBroadcast cfgTiny (some blOne) true 5 reqPlain).err =
      some .tooManyRecipients ∧
    (CreateBroadcast cfgDefault none true 5 reqPlain).persisted = none ∧
    (CreateBroadcast cfgDefault none true 5 reqPlain).dispatchStarted = false := by
  refine ⟨(create_broadcast_validation_order cfgDefault none true 5 reqPlain).1 rfl,
    (create_broadcast_validation_order cfgDefault (some blInactive) true 5
      reqPlain).2.1 blInactive rfl (by decide),
    (create_broadcast_validation_order cfgDefault (some blEmpty) true 5
      reqPlain).2.2.1 blEmpty rfl (by decide) (by decide),
    (create_broadcast_validation_order cfgTiny (some blOne) true 5
      reqPlain).2.2.2.1 blOne rfl (by decide) (by decide) (by decide),
    ?_, ?_⟩
  · exact ((create_broadcast_validation_order cfgDefault none true 5
      reqPlain).2.2.2.2 (by decide)).1
  · exact ((create_broadcast_validation_order cfgDefault none true 5
      reqPlain).2.2.2.2 (by decide)).2

/-- C6: in an uncancelled run every recipient is attempted exactly once —
`sentCount` ends as the number of successes, `failedCount` as the number of
failures (no retries, no abort) — and the job finishes `completed`; in
particular `[A, B, C]` with only B failing ends with `sentCount = 2`,
`failedCount = 1`, status `completed`. -/
theorem recipient_failure_isolated :
    (∀ (cfg : BroadcastConfig) (msg : BroadcastMessage) (outcomes : List Bool)
      (t0 : Nat),
      (executeBroadcast cfg msg outcomes none t0).sentCount = outcomes.count true ∧
      (executeBroadcast cfg msg outcomes none t0).failedCount = outcomes.count false ∧
      (executeBroadcast cfg msg outcomes none t0).status = "completed") ∧
    (executeBroadcast cfgDefault msgThree [true, false, true] none 0).sentCount = 2 ∧
    (executeBroadcast cfgDefault msgThree [true, false, true] none 0).failedCount = 1 ∧
    (executeBroadcast cfgDefault msgThree [true, false, true] none 0).status =
      "completed" := by
  refine ⟨fun cfg msg outcomes t0 => ?_, by decide, by decide, by decide⟩
  have h := loopAux_counts_none cfg outcomes.length outcomes 0 (initLoopState t0)
  refine ⟨?_, ?_, rfl⟩
  · simpa [executeBroadcast, sendToRecipients, initLoopState] using h.1
  · simpa [executeBroadcast, sendToRecipients, initLoopState] using h.2

/-- C7 counterexample: `NewManager` rejects nothing: with
`BROADCAST_RATE_LIMIT=0` it returns an engine holding that configuration, and
that engine's dispatch loop still attempts (and sends to) every recipient —
construction never fails for `R ≤ 0`. -/
theorem new_manager_accepts_nonpositive_rate :
    cfgR0.broadcast.rateLimit ≤ 0 ∧
    NewManager cfgR0 = { cfg := cfgR0, db := [], active := [] } ∧
    (sendToRecipients cfgR0.broadcast [true, true] none 0).sentCount +
      (sendToRecipients cfgR0.broadcast [true, true] none 0).failedCount = 2 := by
  refine ⟨by decide, rfl, by decide⟩

/-- C7 amended: `NewManager` performs no validation and always succeeds,
returning an engine with the given configuration and an empty registry; with
`R ≤ 0` the later dispatch loop enters the window-wait branch before every
single send, yet still attempts all recipients. -/
theorem new_manager_performs_no_validation (cfg : Config) :
    (NewManager cfg).cfg = cfg ∧ (NewManager cfg).active = [] ∧
    (∀ (outcomes : List Bool) (t0 : Nat), cfg.broadcast.rateLimit ≤ 0 →
      (sendToRecipients cfg.broadcast outcomes none t0).sentCount +
        (sendToRecipients cfg.broadcast outcomes none t0).failedCount =
          outcomes.length ∧
      (sendToRecipients cfg.broadcast outcomes none t0).resets =
        outcomes.length) := by
  refine ⟨rfl, rfl, fun outcomes t0 hR => ⟨?_, ?_⟩⟩
  · have h := loopAux_counts_none cfg.broadcast outcomes.length outcomes 0
      (initLoopState t0)
    rw [sendToRecipients, h.1, h.2]
    simp only [initLoopState]
    have := outcomes.count_true_add_count_false
    omega
  · have h := loopAux_resets_rle0 cfg.broadcast outcomes.length hR outcomes 0
      (initLoopState t0)
    rw [sendToRecipients, h]
    simp [initLoopState]

/-- Witness for `new_manager_performs_no_validation` at `R = 0`. -/
theorem new_manager_performs_no_validation_witness :
    cfgR0.broadcast.rateLimit ≤ 0 ∧
    (sendToRecipients cfgR0.broadcast [false, true] none 0).sentCount +
      (sendToRecipients cfgR0.broadcast [false, true] none 0).failedCount = 2 ∧
    (sendToRecipients cfgR0.broadcast [false, true] none 0).resets = 2 := by
  have h := (new_manager_performs_no_validation cfgR0).2.2 [false, true] 0 (by decide)
  exact ⟨by decide, h.1, h.2⟩

/-- C8: a valid request with a non-empty `ScheduledAt` returns success, is
persisted with status `pending`, and spawns no dispatch goroutine
(broadcast.go:144-149 only logs); since `executeBroadcast` is the sole
mutator of a job's status and counters and it runs only when dispatch is
started, the record stays `pending` and no recipient is ever attempted. -/
theorem scheduled_request_starts_no_dispatch :
    ∀ (cfg : BroadcastConfig) (bl : BroadcastList) (newId : Nat)
      (req : BroadcastRequest),
      bl.isActive = true →
      (activeRecipients bl).length ≠ 0 →
      ¬ cfg.maxRecipients < ((activeRecipients bl).length : Int) →
      req.scheduledAt ≠ "" →
      (CreateBroadcast cfg (some bl) true newId req).response.success = true ∧
      (CreateBroadcast cfg (some bl) true newId req).err = none ∧
      ((CreateBroadcast cfg (some bl) true newId req).persisted.map
        BroadcastMessage.status) = some "pending" ∧
      (CreateBroadcast cfg (some bl) true newId req).dispatchStarted = false := by
  intro cfg bl newId req hact hlen hmax hsched
  simp [CreateBroadcast, hact, hlen, hmax, hsched]

/-- Witness for `scheduled_request_starts_no_dispatch` at a concrete
scheduled request. -/
theorem scheduled_request_starts_no_dispatch_witness :
    (CreateBroadcast cfgDefault (some blOne) true 7 reqScheduled).response.success =
      true ∧
    (CreateBroadcast cfgDefault (some blOne) true 7 reqScheduled).err = none ∧
    ((CreateBroadcast cfgDefault (some blOne) true 7 reqScheduled).persisted.map
      BroadcastMessage.status) = some "pending" ∧
    (CreateBroadcast cfgDefault (some blOne) true 7 reqScheduled).dispatchStarted =
      false :=
  scheduled_request_starts_no_dispatch cfgDefault blOne 7 reqScheduled
    (by decide) (by decide) (by decide) (by decide)

/-- C9: a failed send never increments `sentInWindow` (only the success branch
does, broadcast.go:266-273), so a run of consecutive failing recipients that
begins with the window not yet exhausted (`sentInWindow < R`) is attempted in
full without ever entering the rate-limit wait branch, leaving `resets`,
`sentCount` and `sentInWindow` unchanged. -/
theorem failures_not_counted_in_rate_window :
    (∀ (cfg : BroadcastConfig) (n i : Nat) (s : LoopState),
      (sendStep cfg n i false s).sentInWindow =
        if cfg.rateLimit ≤ (s.sentInWindow : Int) then 0 else s.sentInWindow) ∧
    (∀ (cfg : BroadcastConfig) (n : Nat) (cancelAt : Option Nat)
      (rest : List Bool) (i : Nat) (s : LoopState),
      (∀ o ∈ rest, o = false) → (s.sentInWindow : Int) < cfg.rateLimit →
      (loopAux cfg n cancelAt i rest s).resets = s.resets ∧
      (loopAux cfg n cancelAt i rest s).sentCount = s.sentCount ∧
      (loopAux cfg n cancelAt i rest s).sentInWindow = s.sentInWindow ∧
      (cancelAt = none →
        (loopAux cfg n cancelAt i rest s).failedCount =
          s.failedCount + rest.length)) := by
  constructor
  · intro cfg n i s
    rw [sendStep_sentInWindow]
    simp
  · intro cfg n cancelAt rest i s hall hlt
    exact loopAux_failing_run cfg n cancelAt rest hall i s hlt

/-- Witness for `failures_not_counted_in_rate_window`: three consecutive
failures under the default config trigger no rate-limit wait. -/
theorem failures_not_counted_in_rate_window_witness :
    (loopAux cfgDefault 3 none 0 [false, false, false] (initLoopState 0)).resets = 0 ∧
    (loopAux cfgDefault 3 none 0 [false, false, false] (initLoopState 0)).sentCount = 0 ∧
    (loopAux cfgDefault 3 none 0 [false, false, false] (initLoopState 0)).failedCount = 3 := by
  have h := failures_not_counted_in_rate_window.2 cfgDefault 3 none
    [false, false, false] 0 (initLoopState 0) (by decide) (by decide)
  exact ⟨h.1, h.2.1, h.2.2.2 rfl⟩

/-- C10: both `GetBroadcastStatus` and `ListActiveBroadcasts` guard the
progress computation: any status view they produce for a record or live job
with `totalRecipients = 0` carries `progress = 0`. -/
theorem zero_total_progress_is_zero :
    (∀ (m : Manager) (id : Nat) (st : BroadcastStatus),
      GetBroadcastStatus m id = some st → st.totalRecipients = 0 →
      st.progress = 0) ∧
    (∀ (m : Manager) (st : BroadcastStatus),
      st ∈ ListActiveBroadcasts m → st.totalRecipients = 0 →
      st.progress = 0) := by
  constructor
  · intro m id st hget htot
    rcases hm : m.db.lookup id with _ | msg
    · simp [GetBroadcastStatus, hm] at hget
    · simp [GetBroadcastStatus, hm] at hget
      subst hget
      simp only [statusOfMessage] at htot ⊢
      simp [progressOf, htot]
  · intro m st hmem htot
    simp only [ListActiveBroadcasts, List.mem_map] at hmem
    obtain ⟨p, _, rfl⟩ := hmem
    simp only [statusOfJob] at htot ⊢
    simp [progressOf, htot]

/-- Witness for `zero_total_progress_is_zero` on a manager holding a
zero-recipient record and a zero-recipient live job. -/
theorem zero_total_progress_is_zero_witness :
    (statusOfMessage msgZero).progress = 0 ∧
    (statusOfJob jobZero) ∈ ListActiveBroadcasts mgrZero ∧
    (statusOfJob jobZero).progress = 0 := by
  refine ⟨?_, ?_, ?_⟩
  · exact zero_total_progress_is_zero.1 mgrZero 9 (statusOfMessage msgZero)
      (by decide) (by decide)
  · simp [ListActiveBroadcasts, mgrZero]
  · exact zero_total_progress_is_zero.2 mgrZero (statusOfJob jobZero)
      (by simp [ListActiveBroadcasts, mgrZero]) (by decide)

end Gowa
